import Mathlib

/-!
Verification development for the math-expression compiler of the ExtraNodes
repository (src/nodes/mathexpression.py).

The Python source is shallowly embedded: strings are `List Char`, Python
regular-expression based rewrites are implemented as direct character-list
scanners that reproduce the behaviour of the concrete patterns used by the
source, and the Blender node tree is an explicit state structure.  The
`boiler` module (create_socket / remove_socket / link_sockets /
create_new_nodegroup) is repository code that is not present under src/; those
primitives are modelled from the spec (section 6, Graph Backend capability)
and are marked `Modelled from the spec:` below.

Unicode-sensitive Python predicates (str.isdigit, str.isalpha, regex \w and
\d classes) are modelled on the character repertoire that the compiler can
actually see: ASCII, the superscript digit glyphs, and the irrational glyphs
π 𝑒 φ.  Spatial node layout (locations) is not modelled; no claim concerns it.
-/

/-- Characters the sanitizer splits tokens on: the operand set '/*-+%' plus ',()'. -/
def splitChars : List Char := ['/', '*', '-', '+', '%', ',', '(', ')']

def isAsciiDigit (c : Char) : Bool := '0' ≤ c && c ≤ '9'

def isAsciiLower (c : Char) : Bool := 'a' ≤ c && c ≤ 'z'

def isAsciiUpper (c : Char) : Bool := 'A' ≤ c && c ≤ 'Z'

def isAsciiLetter (c : Char) : Bool := isAsciiLower c || isAsciiUpper c

def isAsciiAlnum (c : Char) : Bool := isAsciiLetter c || isAsciiDigit c

/-- The SUPERSCRIPTS table keys of the source. -/
def isSuper (c : Char) : Bool :=
  c = '⁰' || c = '¹' || c = '²' || c = '³' || c = '⁴' || c = '⁵' || c = '⁶' ||
  c = '⁷' || c = '⁸' || c = '⁹'

/-- The SUPERSCRIPTS table of the source: superscript glyph to ASCII digit. -/
def superToDigit (c : Char) : Char :=
  if c = '⁰' then '0' else if c = '¹' then '1' else if c = '²' then '2'
  else if c = '³' then '3' else if c = '⁴' then '4' else if c = '⁵' then '5'
  else if c = '⁶' then '6' else if c = '⁷' then '7' else if c = '⁸' then '8'
  else '9'

/-- The irrational glyphs of the IRRATIONALS table. -/
def isIrrGlyph (c : Char) : Bool := c = 'π' || c = '𝑒' || c = 'φ'

/-- Python str.isdigit on the reachable repertoire: ASCII digits and
superscript digit glyphs are digits. -/
def pyIsDigitChar (c : Char) : Bool := isAsciiDigit c || isSuper c

/-- Python str.isalpha on the reachable repertoire: ASCII letters and the
irrational letter glyphs. -/
def pyIsAlphaChar (c : Char) : Bool := isAsciiLetter c || isIrrGlyph c

/-- Python regex word character (for the \b boundaries used by
match_exact_tokens / replace_exact_tokens), on the reachable repertoire. -/
def wordChar (c : Char) : Bool :=
  isAsciiAlnum c || c = '_' || isIrrGlyph c || isSuper c

/-- The authorized characters assembled in sanatize_expression:
'.,()' ++ '/*-+%' ++ lowercase ++ uppercase ++ digits. -/
def authorizedChar (c : Char) : Bool :=
  c = '.' || c = ',' || c = '(' || c = ')' ||
  c = '/' || c = '*' || c = '-' || c = '+' || c = '%' ||
  isAsciiLetter c || isAsciiDigit c

/-- Base characters of the superscript rewrite pattern [A-Za-z0-9π𝑒φ]. -/
def supBase (c : Char) : Bool := isAsciiAlnum c || isIrrGlyph c

/-- First pass of replace_superscript_exponents: rewrite each maximal
base-run immediately followed by a superscript run into (base**digits).
The regex ([A-Za-z0-9π𝑒φ]+)([⁰¹²³⁴⁵⁶⁷⁸⁹]+) is greedy, so the whole
alphanumeric run is the base.  Fuel-driven scan; fuel larger than the input
length never runs out. -/
def supRewriteA : Nat → List Char → List Char
  | 0, l => l
  | _, [] => []
  | f+1, c :: rest =>
    if supBase c then
      let b := (c :: rest).takeWhile supBase
      let r1 := (c :: rest).dropWhile supBase
      let s := r1.takeWhile isSuper
      if s = [] then
        b ++ supRewriteA f r1
      else
        '(' :: b ++ '*' :: '*' :: s.map superToDigit ++ ')' :: supRewriteA f (r1.dropWhile isSuper)
    else
      c :: supRewriteA f rest

/-- Second pass of replace_superscript_exponents: rewrite `)` immediately
followed by a superscript run into `)**digits`. -/
def supRewriteB : Nat → List Char → List Char
  | 0, l => l
  | _, [] => []
  | f+1, c :: rest =>
    if c = ')' then
      let s := rest.takeWhile isSuper
      if s = [] then ')' :: supRewriteB f rest
      else ')' :: '*' :: '*' :: s.map superToDigit ++ supRewriteB f (rest.dropWhile isSuper)
    else
      c :: supRewriteB f rest

/-- replace_superscript_exponents of the source (both regex substitutions). -/
def replace_superscript_exponents (l : List Char) : List Char :=
  let a := supRewriteA (l.length + 1) l
  supRewriteB (a.length + 1) a

/-- re.fullmatch r'\d+(?:\.\d+)?' on a token: the numeric-token test used by
the exact-token boundary builder. -/
def isNumericTok (t : List Char) : Bool :=
  let d1 := t.takeWhile isAsciiDigit
  let r := t.dropWhile isAsciiDigit
  d1 ≠ [] &&
    (r = [] ||
      (r.head? = some '.' && r.tail.takeWhile isAsciiDigit ≠ [] &&
        r.tail.dropWhile isAsciiDigit = []))

/-- A character that blocks a numeric token boundary: the (?<![\d.]) and
(?![\d.]) lookarounds. -/
def numBoundaryBlock (c : Char) : Bool := isAsciiDigit c || c = '.'

/-- Token boundary check of match_exact_tokens / replace_exact_tokens:
numeric tokens must not be part of a larger number, other tokens use \b
word boundaries.  `prev` is the character before the candidate match,
`next` the character after it. -/
def boundaryOk (tok : List Char) (prev : Option Char) (next : Option Char) : Bool :=
  if isNumericTok tok then
    (match prev with | none => true | some p => !numBoundaryBlock p) &&
    (match next with | none => true | some n => !numBoundaryBlock n)
  else
    (match prev with | none => true | some p => !wordChar p) &&
    (match next with | none => true | some n => !wordChar n)

/-- Try the alternatives (in pattern order) at the current position; return
the matched token together with its payload and the rest of the input. -/
def findTokMatch (mp : List (List Char × α)) (prev : Option Char) (l : List Char) :
    Option (List Char × α × List Char) :=
  match mp with
  | [] => none
  | (tok, pay) :: mrest =>
    if tok ≠ [] && tok.isPrefixOf l &&
        boundaryOk tok prev ((l.drop tok.length).head?) then
      some (tok, pay, l.drop tok.length)
    else
      findTokMatch mrest prev l

/-- Scanner behind replace_exact_tokens: left-to-right re.sub over the
alternation of the token patterns; replacements are not rescanned. -/
def scanReplace : Nat → Option Char → List (List Char × List Char) → List Char → List Char
  | 0, _, _, l => l
  | _, _, _, [] => []
  | f+1, prev, mp, c :: rest =>
    match findTokMatch mp prev (c :: rest) with
    | some (tok, repl, remaining) =>
      repl ++ scanReplace f tok.getLast? mp remaining
    | none => c :: scanReplace f (some c) mp rest

/-- replace_exact_tokens of the source. -/
def replace_exact_tokens (l : List Char) (mp : List (List Char × List Char)) : List Char :=
  scanReplace (l.length + 1) none mp l

/-- Scanner behind match_exact_tokens: re.findall over the same alternation. -/
def scanFind : Nat → Option Char → List (List Char) → List Char → List (List Char)
  | 0, _, _, _ => []
  | _, _, _, [] => []
  | f+1, prev, toks, c :: rest =>
    match findTokMatch (toks.map (fun t => (t, ()))) prev (c :: rest) with
    | some (tok, _, remaining) => tok :: scanFind f tok.getLast? toks remaining
    | none => scanFind f (some c) toks rest

/-- match_exact_tokens of the source. -/
def match_exact_tokens (l : List Char) (toks : List (List Char)) : List (List Char) :=
  scanFind (l.length + 1) none toks l

/-- The IRRATIONALS table: unicode glyph tokens in dict order (Pi, eNum, Gold). -/
def irrGlyphs : List (List Char) := ["π".data, "𝑒".data, "φ".data]

/-- Glyph to 7-decimal literal, as in IRRATIONALS. -/
def irrMap : List (List Char × List Char) :=
  [("π".data, "3.1415927".data), ("𝑒".data, "2.7182818".data), ("φ".data, "1.6180339".data)]

/-- The macro names of IRRATIONALS, in dict order. -/
def macroTokens : List (List Char) := ["Pi".data, "eNum".data, "Gold".data]

/-- Macro name to unicode glyph, as used by apply_expression's auto_symbols step. -/
def macroMap : List (List Char × List Char) :=
  [("Pi".data, "π".data), ("eNum".data, "𝑒".data), ("Gold".data, "φ".data)]

/-- Split an expression into the chunks between operand/syntax characters
(the source replaces each of '/*-+%,()' with '|' and splits on '|'). -/
def splitToks : List Char → List (List Char)
  | [] => [[]]
  | c :: rest =>
    match splitToks rest with
    | [] => []
    | t :: ts => if c ∈ splitChars then [] :: t :: ts else (c :: t) :: ts

/-- First-occurrence deduplication (fuel-driven scan; the fuel bounds the
list length and never runs out).  The source stores the tokens in a Python
set whose iteration order is unspecified; this embedding fixes the
first-occurrence order.  No settled claim depends on that order. -/
def dedupFOA : Nat → List (List Char) → List (List Char)
  | 0, l => l
  | _, [] => []
  | f+1, x :: r => x :: dedupFOA f (r.filter (fun y => y ≠ x))

def dedupFO (l : List (List Char)) : List (List Char) := dedupFOA (l.length + 1) l

/-- elemTotal of sanatize_expression: nonempty split chunks, deduplicated. -/
def tokensOf (l : List Char) : List (List Char) :=
  dedupFO ((splitToks l).filter (fun t => t ≠ []))

/-- Python `e.replace('.','').isdigit()`: the Constant-token test.
(str.isdigit also accepts the superscript glyphs.) -/
def constTok (e : List Char) : Bool :=
  let r := e.filter (fun c => c ≠ '.')
  r ≠ [] && r.all pyIsDigitChar

/-- Python `e.isalpha()`: the Variable-token test. -/
def alphaTok (e : List Char) : Bool := e ≠ [] && e.all pyIsAlphaChar

/-- Does `pat` occur as a contiguous substring of `l` (Python `in`)? -/
def containsSub (pat l : List Char) : Bool :=
  l.tails.any (fun t => pat.isPrefixOf t)

/-- NodeSetter.get_functions(get_names=True): every public classmethod of the
registry, excluding helpers.  Only membership is ever observed. -/
def funct_namespace : List (List Char) :=
  ["add".data, "subtract".data, "mult".data, "div".data, "exp".data,
   "power".data, "log".data, "sqrt".data, "invsqrt".data, "nroot".data,
   "abs".data, "min".data, "max".data, "round".data, "floor".data,
   "ceil".data, "trunc".data, "modulo".data, "wrap".data, "snap".data,
   "floordiv".data, "sin".data, "cos".data, "tan".data, "asin".data,
   "acos".data, "atan".data, "hsin".data, "hcos".data, "htan".data,
   "rad".data, "deg".data, "lerp".data, "mix".data, "clamp".data,
   "clampr".data]

/-- The classified element sets of one sanitization pass, in iteration order. -/
structure ClassAcc where
  var : List (List Char)
  const : List (List Char)
  fct : List (List Char)
  cmplx : List (List Char)
deriving DecidableEq, Repr

/-- Errors produced by sanatize_expression, with their user-facing strings. -/
inductive SanErr where
  | unrecognizedVariable (tok : List Char)
  | variableTaken (tok : List Char)
  | unrecognizedSymbol (c : Char)
deriving DecidableEq, Repr

def SanErr.message : SanErr → List Char
  | .unrecognizedVariable t => "Unrecorgnized Variable '".data ++ t ++ "'".data
  | .variableTaken t => "Variable '".data ++ t ++ "' is Taken".data
  | .unrecognizedSymbol c => "Unrecorgnized Symbol '".data ++ [c] ++ "'".data

/-- The implicit_mult = False classification loop of sanatize_expression.
Note the collision branch (`Variable '{e}' is Taken`) sits under `e.isalpha()`
but is only reachable when `e in funct_namespace`, which the first branch has
already consumed. -/
def classifyOff : List (List Char) → ClassAcc → Except SanErr ClassAcc
  | [], acc => .ok acc
  | e :: rest, acc =>
    if e ∈ funct_namespace then
      classifyOff rest { acc with fct := acc.fct ++ [e] }
    else if constTok e then
      classifyOff rest { acc with const := acc.const ++ [e] }
    else if alphaTok e then
      if e ∈ funct_namespace then .error (.variableTaken e)
      else classifyOff rest { acc with var := acc.var ++ [e] }
    else .error (.unrecognizedVariable e)

/-- The implicit_mult = True classification loop: a registry name counts as a
Function only when `f'{e}('` occurs in the expression; otherwise the token
falls through to the later tests. -/
def classifyOn (expression : List Char) : List (List Char) → ClassAcc → Except SanErr ClassAcc
  | [], acc => .ok acc
  | e :: rest, acc =>
    if e ∈ funct_namespace && containsSub (e ++ "(".data) expression then
      classifyOn expression rest { acc with fct := acc.fct ++ [e] }
    else if constTok e then
      classifyOn expression rest { acc with const := acc.const ++ [e] }
    else if alphaTok e then
      classifyOn expression rest { acc with var := acc.var ++ [e] }
    else if e.any pyIsDigitChar then
      classifyOn expression rest { acc with cmplx := acc.cmplx ++ [e] }
    else .error (.unrecognizedVariable e)

/-- The implicit multiplication insertion re.sub((\d+(?:\.\d+)?)(\(), \1*\2):
insert '*' between a numeric literal and an immediately following '('. -/
def insertIMA : Nat → List Char → List Char
  | 0, l => l
  | _, [] => []
  | f+1, c :: rest =>
    if isAsciiDigit c then
      let d := (c :: rest).takeWhile isAsciiDigit
      let r1 := (c :: rest).dropWhile isAsciiDigit
      match r1 with
      | '(' :: r2 => d ++ '*' :: '(' :: insertIMA f r2
      | '.' :: r2 =>
        let d2 := r2.takeWhile isAsciiDigit
        let r3 := r2.dropWhile isAsciiDigit
        if d2 = [] then d ++ '.' :: insertIMA f r2
        else
          match r3 with
          | '(' :: r4 => d ++ '.' :: d2 ++ '*' :: '(' :: insertIMA f r4
          | _ => d ++ '.' :: d2 ++ insertIMA f r3
      | _ => d ++ insertIMA f r1
    else
      c :: insertIMA f rest

def insertImplicitMult (l : List Char) : List Char := insertIMA (l.length + 1) l

/-- The successful result of sanatize_expression: the rewritten expression and
the classified element sets stored on the node instance. -/
structure SanOut where
  expr : List Char
  elemVar : List (List Char)
  elemConst : List (List Char)
  elemFct : List (List Char)
  elemCmplx : List (List Char)
deriving DecidableEq, Repr

/-- The classification step on the rewritten expression: dispatch to the
loop matching the implicit_mult mode. -/
def sanClassify (implicit_mult : Bool) (e3 : List Char) : Except SanErr ClassAcc :=
  if implicit_mult then classifyOn e3 (tokensOf e3) ⟨[], [], [], []⟩
  else classifyOff (tokensOf e3) ⟨[], [], [], []⟩

/-- The tail of sanatize_expression: classify, verify the character set in
expression order, then insert implicit multiplication before parentheses. -/
def sanFinish (implicit_mult : Bool) (e3 : List Char) : Except SanErr SanOut :=
  match sanClassify implicit_mult e3 with
  | .error er => .error er
  | .ok acc =>
    match e3.find? (fun c => !authorizedChar c) with
    | some c => .error (.unrecognizedSymbol c)
    | none => .ok ⟨insertImplicitMult e3, acc.var, acc.const, acc.fct, acc.cmplx⟩

/-- EXTRANODES_NG_mathexpression.sanatize_expression: strip spaces, rewrite
superscripts when present, substitute irrational glyph tokens, classify the
tokens, verify the character set, and finally insert implicit multiplication
before parentheses. -/
def sanatize_expression (implicit_mult : Bool) (expression0 : List Char) :
    Except SanErr SanOut :=
  let e1 := expression0.filter (fun c => c ≠ ' ')
  let e2 := if e1.any isSuper then replace_superscript_exponents e1 else e1
  let mached := match_exact_tokens e2 irrGlyphs
  let e3 := if mached ≠ [] then
      replace_exact_tokens e2 (irrMap.filter (fun p => p.1 ∈ mached))
    else e2
  sanFinish implicit_mult e3

/-- Binary operators reachable from the sanitized character set (the ast
node kinds the source's visit_BinOp handles). -/
inductive BOp where
  | addB | subB | mulB | divB | powB | modB | floordivB
deriving DecidableEq, Repr

/-- Unary operators of the grammar (ast.UAdd / ast.USub). -/
inductive UOp where
  | uadd | usub
deriving DecidableEq, Repr

mutual
/-- Python expression AST over the sanitized grammar, mirroring the ast
nodes the compiler can receive: Constant (kept as source text), Name,
UnaryOp, BinOp, Call and Tuple. -/
inductive PyExpr where
  | num (s : List Char)
  | name (s : List Char)
  | unaryop (op : UOp) (e : PyExpr)
  | binop (op : BOp) (l : PyExpr) (r : PyExpr)
  | call (fn : PyExpr) (args : PyArgs)
  | tuple (elts : PyArgs)
deriving DecidableEq, Repr

inductive PyArgs where
  | anil
  | acons (e : PyExpr) (rest : PyArgs)
deriving DecidableEq, Repr
end

/-- The operator-to-function-name map of visit_BinOp. -/
def BOp.funcName : BOp → List Char
  | .addB => "add".data
  | .subB => "subtract".data
  | .mulB => "mult".data
  | .divB => "div".data
  | .powB => "exp".data
  | .modB => "modulo".data
  | .floordivB => "floordiv".data

/-- Expression tokens. -/
inductive Tok where
  | num (s : List Char)
  | tname (s : List Char)
  | lparen | rparen | comma
  | plus | minus | star | slash | percent | dstar | dslash
deriving DecidableEq, Repr

/-- Models the Python tokenizer on the sanitized character set.  Fuel-driven;
returns none on a character no expression token can start with. -/
def tokenizeA : Nat → List Char → Option (List Tok)
  | 0, _ => none
  | _, [] => some []
  | f+1, c :: rest =>
    if isAsciiDigit c then
      let d := (c :: rest).takeWhile isAsciiDigit
      let r1 := (c :: rest).dropWhile isAsciiDigit
      match r1 with
      | '.' :: r2 =>
        let d2 := r2.takeWhile isAsciiDigit
        (tokenizeA f (r2.dropWhile isAsciiDigit)).map
          (fun ts => Tok.num (d ++ '.' :: d2) :: ts)
      | _ => (tokenizeA f r1).map (fun ts => Tok.num d :: ts)
    else if c = '.' then
      let d2 := rest.takeWhile isAsciiDigit
      if d2 = [] then none
      else (tokenizeA f (rest.dropWhile isAsciiDigit)).map
        (fun ts => Tok.num ('.' :: d2) :: ts)
    else if isAsciiLetter c || c = '_' then
      let nm := (c :: rest).takeWhile (fun x => isAsciiAlnum x || x = '_')
      (tokenizeA f ((c :: rest).dropWhile (fun x => isAsciiAlnum x || x = '_'))).map
        (fun ts => Tok.tname nm :: ts)
    else if c = '*' then
      match rest with
      | '*' :: r2 => (tokenizeA f r2).map (fun ts => Tok.dstar :: ts)
      | _ => (tokenizeA f rest).map (fun ts => Tok.star :: ts)
    else if c = '/' then
      match rest with
      | '/' :: r2 => (tokenizeA f r2).map (fun ts => Tok.dslash :: ts)
      | _ => (tokenizeA f rest).map (fun ts => Tok.slash :: ts)
    else if c = '+' then (tokenizeA f rest).map (fun ts => Tok.plus :: ts)
    else if c = '-' then (tokenizeA f rest).map (fun ts => Tok.minus :: ts)
    else if c = '%' then (tokenizeA f rest).map (fun ts => Tok.percent :: ts)
    else if c = '(' then (tokenizeA f rest).map (fun ts => Tok.lparen :: ts)
    else if c = ')' then (tokenizeA f rest).map (fun ts => Tok.rparen :: ts)
    else if c = ',' then (tokenizeA f rest).map (fun ts => Tok.comma :: ts)
    else none

def tokenize (l : List Char) : Option (List Tok) := tokenizeA (l.length + 1) l

mutual
/-- Atom: number, name, or parenthesized expression/tuple. -/
def pAtom : Nat → List Tok → Option (PyExpr × List Tok)
  | 0, _ => none
  | _+1, Tok.num s :: ts => some (.num s, ts)
  | _+1, Tok.tname s :: ts => some (.name s, ts)
  | f+1, Tok.lparen :: ts =>
    match pTuple f ts with
    | some (e, Tok.rparen :: ts2) => some (e, ts2)
    | _ => none
  | _, _ => none

/-- Atom followed by call suffixes (Python primary). -/
def pPrimary : Nat → List Tok → Option (PyExpr × List Tok)
  | 0, _ => none
  | f+1, ts =>
    match pAtom f ts with
    | some (e, ts2) => pCallSuffix f e ts2
    | none => none

def pCallSuffix : Nat → PyExpr → List Tok → Option (PyExpr × List Tok)
  | 0, _, _ => none
  | f+1, e, Tok.lparen :: Tok.rparen :: ts => pCallSuffix f (.call e .anil) ts
  | f+1, e, Tok.lparen :: ts =>
    match pArgList f ts with
    | some (args, Tok.rparen :: ts2) => pCallSuffix f (.call e args) ts2
    | _ => none
  | _+1, e, ts => some (e, ts)

def pArgList : Nat → List Tok → Option (PyArgs × List Tok)
  | 0, _ => none
  | f+1, ts =>
    match pArith f ts with
    | some (e, Tok.comma :: ts2) =>
      match pArgList f ts2 with
      | some (r, ts3) => some (.acons e r, ts3)
      | none => none
    | some (e, ts2) => some (.acons e .anil, ts2)
    | none => none

/-- Python power: primary ['**' factor]; the right operand is at unary level,
making '**' right-associative and able to carry a unary sign. -/
def pPower : Nat → List Tok → Option (PyExpr × List Tok)
  | 0, _ => none
  | f+1, ts =>
    match pPrimary f ts with
    | some (b, Tok.dstar :: ts2) =>
      match pUnary f ts2 with
      | some (r, ts3) => some (.binop .powB b r, ts3)
      | none => none
    | some (b, ts2) => some (b, ts2)
    | none => none

/-- Python factor: unary plus and minus bind looser than '**' on their left. -/
def pUnary : Nat → List Tok → Option (PyExpr × List Tok)
  | 0, _ => none
  | f+1, Tok.minus :: ts =>
    match pUnary f ts with
    | some (e, ts2) => some (.unaryop .usub e, ts2)
    | none => none
  | f+1, Tok.plus :: ts =>
    match pUnary f ts with
    | some (e, ts2) => some (.unaryop .uadd e, ts2)
    | none => none
  | f+1, ts => pPower f ts

def pTermRest : Nat → PyExpr → List Tok → Option (PyExpr × List Tok)
  | 0, _, _ => none
  | f+1, acc, t :: ts =>
    if t = Tok.star ∨ t = Tok.slash ∨ t = Tok.percent ∨ t = Tok.dslash then
      match pUnary f ts with
      | some (r, ts2) =>
        let op : BOp := if t = Tok.star then .mulB else if t = Tok.slash then .divB
                        else if t = Tok.percent then .modB else .floordivB
        pTermRest f (.binop op acc r) ts2
      | none => none
    else some (acc, t :: ts)
  | _+1, acc, [] => some (acc, [])

def pTerm : Nat → List Tok → Option (PyExpr × List Tok)
  | 0, _ => none
  | f+1, ts =>
    match pUnary f ts with
    | some (e, ts2) => pTermRest f e ts2
    | none => none

def pArithRest : Nat → PyExpr → List Tok → Option (PyExpr × List Tok)
  | 0, _, _ => none
  | f+1, acc, Tok.plus :: ts =>
    match pTerm f ts with
    | some (r, ts2) => pArithRest f (.binop .addB acc r) ts2
    | none => none
  | f+1, acc, Tok.minus :: ts =>
    match pTerm f ts with
    | some (r, ts2) => pArithRest f (.binop .subB acc r) ts2
    | none => none
  | _+1, acc, ts => some (acc, ts)

def pArith : Nat → List Tok → Option (PyExpr × List Tok)
  | 0, _ => none
  | f+1, ts =>
    match pTerm f ts with
    | some (e, ts2) => pArithRest f e ts2
    | none => none

/-- Top level / parenthesized body: an arithmetic expression, or a
comma-separated tuple display. -/
def pTuple : Nat → List Tok → Option (PyExpr × List Tok)
  | 0, _ => none
  | f+1, ts =>
    match pArith f ts with
    | some (e, Tok.comma :: ts2) =>
      match pTupleRest f ts2 with
      | some (r, ts3) => some (.tuple (.acons e r), ts3)
      | none => none
    | some (e, ts2) => some (e, ts2)
    | none => none

def pTupleRest : Nat → List Tok → Option (PyArgs × List Tok)
  | 0, _ => none
  | f+1, ts =>
    match pArith f ts with
    | some (e, Tok.comma :: ts2) =>
      match pTupleRest f ts2 with
      | some (r, ts3) => some (.acons e r, ts3)
      | none => none
    | some (e, ts2) => some (.acons e .anil, ts2)
    | none => none
end

/-- Models ast.parse(expr, mode='eval') on the sanitized grammar. -/
def pyParse (l : List Char) : Option PyExpr :=
  match tokenize l with
  | none => none
  | some toks =>
    match pTuple ((toks.length + 1) * 8) toks with
    | some (e, []) => some e
    | _ => none

mutual
/-- FunctionTransformer.visit: every BinOp is rewritten (children first) into
a Call of the mapped registry name; Call/Name/Constant pass through with
children visited; UnaryOp has no visitor and is left in place by
generic_visit. -/
def transformE : PyExpr → PyExpr
  | .num s => .num s
  | .name s => .name s
  | .unaryop op e => .unaryop op (transformE e)
  | .binop op l r =>
    .call (.name op.funcName) (.acons (transformE l) (.acons (transformE r) .anil))
  | .call f args => .call (transformE f) (transformA args)
  | .tuple es => .tuple (transformA es)

def transformA : PyArgs → PyArgs
  | .anil => .anil
  | .acons e rest => .acons (transformE e) (transformA rest)
end

mutual
/-- The functions_used set collected during the visit: operator-derived names
from visit_BinOp, and callee names of Call nodes whose func is a Name. -/
def funcsUsedE : PyExpr → List (List Char)
  | .num _ => []
  | .name _ => []
  | .unaryop _ e => funcsUsedE e
  | .binop op l r => funcsUsedE l ++ funcsUsedE r ++ [op.funcName]
  | .call f args =>
    (match f with | .name id => [id] | _ => []) ++ funcsUsedE f ++ funcsUsedA args
  | .tuple es => funcsUsedA es

def funcsUsedA : PyArgs → List (List Char)
  | .anil => []
  | .acons e rest => funcsUsedE e ++ funcsUsedA rest
end

/-- Blender math node operation identifiers used by the registry. -/
inductive MathOp where
  | ADD | SUBTRACT | MULTIPLY | DIVIDE | POWER | LOGARITHM | SQRT
  | INVERSE_SQRT | ABSOLUTE | MINIMUM | MAXIMUM | ROUND | FLOOR | CEIL
  | TRUNC | MODULO | WRAP | SNAP | SINE | COSINE | TANGENT | ARCSINE
  | ARCCOSINE | ARCTANGENT | SINH | COSH | TANH | RADIANS | DEGREES
deriving DecidableEq, Repr

inductive ClampTy where
  | MINMAX | RANGE
deriving DecidableEq, Repr

/-- Node kinds the synthesizer can create: ShaderNodeMath (type MATH),
ShaderNodeValue (type VALUE, carrying the constant's source text),
ShaderNodeMix with data_type FLOAT, and ShaderNodeClamp. -/
inductive NodeKind where
  | MATH (op : MathOp)
  | VALUE (v : List Char)
  | MIXFLOAT
  | CLAMPN (ct : ClampTy)
deriving DecidableEq, Repr

/-- An interior node of the compiled fragment.  Spatial locations are not
modelled. -/
structure GNode where
  nid : Nat
  kind : NodeKind
deriving DecidableEq, Repr

/-- Blender socket type of a boundary input socket: float sockets have type
VALUE, the trailing virtual socket has type CUSTOM. -/
inductive SockType where
  | CUSTOM | VALUE
deriving DecidableEq, Repr

/-- A boundary input socket (an output of the Group Input node).  `sid` is a
stable identity so that socket reuse across recompilations is observable. -/
structure BSocket where
  name : List Char
  sid : Nat
  stype : SockType
deriving DecidableEq, Repr

/-- A reference to a socket: a boundary input socket (by identity), an
input/output pin of an interior node, or the Group Output's input pin. -/
inductive SockRef where
  | inSock (sid : Nat)
  | nodeOut (nid : Nat) (k : Nat)
  | nodeIn (nid : Nat) (k : Nat)
  | outSock (k : Nat)
deriving DecidableEq, Repr

/-- The node tree owned by one math-expression node: boundary input sockets
(the Group Input node's outputs, virtual CUSTOM socket last), interior nodes
in creation order, links, the active node, and a fresh-identity counter. -/
structure NodeTree where
  inSockets : List BSocket
  nodes : List GNode
  links : List (SockRef × SockRef)
  active : Option Nat
  fresh : Nat
deriving DecidableEq, Repr

def refNode : SockRef → Option Nat
  | .nodeOut nid _ => some nid
  | .nodeIn nid _ => some nid
  | _ => none

def refSid : SockRef → Option Nat
  | .inSock sid => some sid
  | _ => none

def linkTouchesNodes (nids : List Nat) (l : SockRef × SockRef) : Bool :=
  (match refNode l.1 with | some n => n ∈ nids | none => false) ||
  (match refNode l.2 with | some n => n ∈ nids | none => false)

def linkTouchesSid (sid : Nat) (l : SockRef × SockRef) : Bool :=
  refSid l.1 = some sid || refSid l.2 = some sid

/-- Modelled from the spec: boiler.link_sockets / connect(SocketHandle,
SocketHandle).  Connecting into a single-input destination replaces any
existing link into that destination. -/
def addLink (src dst : SockRef) (ng : NodeTree) : NodeTree :=
  { ng with links := ng.links.filter (fun l => l.2 ≠ dst) ++ [(src, dst)] }

/-- Modelled from the spec: boiler.create_socket / add_boundary_input(name,
type) — append a fresh float boundary input socket; the virtual CUSTOM
socket stays last. -/
def create_socket (ng : NodeTree) (name : List Char) : NodeTree :=
  { ng with
    inSockets := ng.inSockets.dropLast ++ [⟨name, ng.fresh, .VALUE⟩] ++
      (match ng.inSockets.getLast? with | some s => [s] | none => []),
    fresh := ng.fresh + 1 }

/-- Modelled from the spec: boiler.remove_socket / remove_boundary_input(idx)
— delete the boundary input socket at the index; links attached to it die. -/
def remove_socket (ng : NodeTree) (idx : Nat) : NodeTree :=
  match ng.inSockets[idx]? with
  | none => ng
  | some s =>
    { ng with
      inSockets := ng.inSockets.eraseIdx idx,
      links := ng.links.filter (fun l => !linkTouchesSid s.sid l) }

/-- The clear step of apply_expression: remove every node that is not the
Group Input / Group Output pair; their links die with them, and the active
node reference is gone afterwards. -/
def clearInterior (ng : NodeTree) : NodeTree :=
  let removed := ng.nodes.map (·.nid)
  { ng with
    nodes := [], active := none,
    links := ng.links.filter (fun l => !linkTouchesNodes removed l) }

/-- The create-missing-sockets loop: `current_vars` is computed once before
the loop. -/
def createMissing (elemVar : List (List Char)) (ng : NodeTree) : NodeTree :=
  let current := ng.inSockets.map (·.name)
  elemVar.foldl (fun g v => if v ∈ current then g else create_socket g v) ng

/-- The indices collected by the remove-unused-sockets loop: non-CUSTOM
sockets whose name is not in the current Variable set. -/
def staleIdxsAux (elemVar : List (List Char)) : Nat → List BSocket → List Nat
  | _, [] => []
  | i, s :: rest =>
    (if s.stype ≠ SockType.CUSTOM && !(decide (s.name ∈ elemVar)) then [i] else []) ++
      staleIdxsAux elemVar (i+1) rest

/-- The remove-unused-sockets loop of apply_expression: collect the stale
indices, then remove them in reversed order. -/
def removeStale (elemVar : List (List Char)) (ng : NodeTree) : NodeTree :=
  (staleIdxsAux elemVar 0 ng.inSockets).reverse.foldl remove_socket ng

/-- The varname-to-socket equivalence dict: for every Group Input output
socket whose name is a Variable, bind the name to the socket (the source
stores the socket's python-API path; the model stores the stable
reference). -/
def buildVarEq (elemVar : List (List Char)) (ng : NodeTree) : List (List Char × SockRef) :=
  ng.inSockets.filterMap
    (fun s => if s.name ∈ elemVar then some (s.name, SockRef.inSock s.sid) else none)

/-- The constant-node creation loop: one ShaderNodeValue per Constant token
(in iteration order), together with the const-to-socket equivalence dict. -/
def createConsts : List (List Char) → NodeTree → NodeTree × List (List Char × SockRef)
  | [], ng => (ng, [])
  | c :: rest, ng =>
    let nid := ng.fresh
    let ng := { ng with nodes := ng.nodes ++ [⟨nid, .VALUE c⟩], fresh := ng.fresh + 1 }
    let (ng, eqs) := createConsts rest ng
    (ng, (c, SockRef.nodeOut nid 0) :: eqs)

/-- Errors of the synthesis stage, with the user-facing strings cooked by
execute_function_expression from the underlying Python exceptions. -/
inductive ExecErr where
  | needsMore (f : List Char) (n : Nat)
  | extraParams (f : List Char)
  | wrongArguments
  | tupleSyntax
  | executionError
  | finalLinkError
deriving DecidableEq, Repr

def ExecErr.message : ExecErr → List Char
  | .needsMore f n => "Function '".data ++ f ++ "' needs ".data ++ (toString n).data ++ " more Params".data
  | .extraParams f => "Function '".data ++ f ++ "' recieved Extra Params".data
  | .wrongArguments => "Wrong Arguments Given".data
  | .tupleSyntax => "Wrong use of '( , )' Synthax".data
  | .executionError => "Error on Execution".data
  | .finalLinkError => "Error on Final Link".data

/-- The registry primitives by backend shape. -/
inductive Prim where
  | math1 (op : MathOp)
  | math2 (op : MathOp)
  | math3 (op : MathOp)
  | nrootP
  | lerpP
  | clampP (ct : ClampTy)
  | floordivP
deriving DecidableEq, Repr

/-- The fixed operand count of each primitive (the positional parameters of
the NodeSetter classmethods). -/
def Prim.arity : Prim → Nat
  | .math1 _ => 1
  | .math2 _ => 2
  | .math3 _ => 3
  | .nrootP => 2
  | .lerpP => 3
  | .clampP _ => 3
  | .floordivP => 2

/-- The NodeSetter registry: name, primitive.  power is a synonym of exp and
mix of lerp. -/
def registry : List (List Char × Prim) :=
  [("add".data, .math2 .ADD), ("subtract".data, .math2 .SUBTRACT),
   ("mult".data, .math2 .MULTIPLY), ("div".data, .math2 .DIVIDE),
   ("exp".data, .math2 .POWER), ("power".data, .math2 .POWER),
   ("log".data, .math2 .LOGARITHM), ("sqrt".data, .math1 .SQRT),
   ("invsqrt".data, .math1 .INVERSE_SQRT), ("nroot".data, .nrootP),
   ("abs".data, .math1 .ABSOLUTE), ("min".data, .math2 .MINIMUM),
   ("max".data, .math2 .MAXIMUM), ("round".data, .math1 .ROUND),
   ("floor".data, .math1 .FLOOR), ("ceil".data, .math1 .CEIL),
   ("trunc".data, .math1 .TRUNC), ("modulo".data, .math2 .MODULO),
   ("wrap".data, .math3 .WRAP), ("snap".data, .math2 .SNAP),
   ("floordiv".data, .floordivP), ("sin".data, .math1 .SINE),
   ("cos".data, .math1 .COSINE), ("tan".data, .math1 .TANGENT),
   ("asin".data, .math1 .ARCSINE), ("acos".data, .math1 .ARCCOSINE),
   ("atan".data, .math1 .ARCTANGENT), ("hsin".data, .math1 .SINH),
   ("hcos".data, .math1 .COSH), ("htan".data, .math1 .TANH),
   ("rad".data, .math1 .RADIANS), ("deg".data, .math1 .DEGREES),
   ("lerp".data, .lerpP), ("mix".data, .lerpP),
   ("clamp".data, .clampP .MINMAX), ("clampr".data, .clampP .RANGE)]

/-- NodeSetter._floatmath: one math node, link the given sockets to its
inputs, mark it active, return its first output. -/
def floatmath (op : MathOp) (s1 : SockRef) (s2 s3 : Option SockRef) (ng : NodeTree) :
    NodeTree × SockRef :=
  let nid := ng.fresh
  let ng := { ng with
    nodes := ng.nodes ++ [⟨nid, .MATH op⟩],
    fresh := ng.fresh + 1, active := some nid }
  let ng := addLink s1 (.nodeIn nid 0) ng
  let ng := match s2 with | some s => addLink s (.nodeIn nid 1) ng | none => ng
  let ng := match s3 with | some s => addLink s (.nodeIn nid 2) ng | none => ng
  (ng, .nodeOut nid 0)

/-- NodeSetter._floatmath_nroot: a DIVIDE node computing 1/n (its first input
left at default 1.0) chained into a POWER node. -/
def floatmathNroot (s1 s2 : SockRef) (ng : NodeTree) : NodeTree × SockRef :=
  let nid1 := ng.fresh
  let ng := { ng with
    nodes := ng.nodes ++ [⟨nid1, .MATH .DIVIDE⟩],
    fresh := ng.fresh + 1, active := some nid1 }
  let ng := addLink s2 (.nodeIn nid1 1) ng
  let nid2 := ng.fresh
  let ng := { ng with
    nodes := ng.nodes ++ [⟨nid2, .MATH .POWER⟩],
    fresh := ng.fresh + 1, active := some nid2 }
  let ng := addLink s1 (.nodeIn nid2 0) ng
  let ng := addLink (.nodeOut nid1 0) (.nodeIn nid2 1) ng
  (ng, .nodeOut nid2 0)

/-- NodeSetter._mix with data_type FLOAT: inputs 0, 2, 3 are wired (socket
indices as exposed by the Blender node). -/
def mixFloat (s1 s2 s3 : SockRef) (ng : NodeTree) : NodeTree × SockRef :=
  let nid := ng.fresh
  let ng := { ng with
    nodes := ng.nodes ++ [⟨nid, .MIXFLOAT⟩],
    fresh := ng.fresh + 1, active := some nid }
  let ng := addLink s1 (.nodeIn nid 0) ng
  let ng := addLink s2 (.nodeIn nid 2) ng
  let ng := addLink s3 (.nodeIn nid 3) ng
  (ng, .nodeOut nid 0)

/-- NodeSetter._floatclamp. -/
def floatClamp (ct : ClampTy) (s1 s2 s3 : SockRef) (ng : NodeTree) : NodeTree × SockRef :=
  let nid := ng.fresh
  let ng := { ng with
    nodes := ng.nodes ++ [⟨nid, .CLAMPN ct⟩],
    fresh := ng.fresh + 1, active := some nid }
  let ng := addLink s1 (.nodeIn nid 0) ng
  let ng := addLink s2 (.nodeIn nid 1) ng
  let ng := addLink s3 (.nodeIn nid 2) ng
  (ng, .nodeOut nid 0)

/-- Dispatch a primitive whose arity has already been checked.  The
fall-through cases are unreachable. -/
def applyPrim (p : Prim) (args : List SockRef) (ng : NodeTree) : NodeTree × SockRef :=
  match p, args with
  | .math1 op, [s1] => floatmath op s1 none none ng
  | .math2 op, [s1, s2] => floatmath op s1 (some s2) none ng
  | .math3 op, [s1, s2, s3] => floatmath op s1 (some s2) (some s3) ng
  | .nrootP, [s1, s2] => floatmathNroot s1 s2 ng
  | .lerpP, [s1, s2, s3] => mixFloat s1 s2 s3 ng
  | .clampP ct, [s1, s2, s3] => floatClamp ct s1 s2 s3 ng
  | .floordivP, [s1, s2] =>
    let (ng, r) := floatmath .DIVIDE s1 (some s2) none ng
    floatmath .FLOOR r none none ng
  | _, _ => (ng, .outSock 0)

/-- Values of the sandboxed evaluation: socket handles, registry functions,
raw numbers (a numeric literal that was not bound to a value-node socket)
and tuples (content irrelevant: tuples only ever produce errors). -/
inductive Val where
  | sock (r : SockRef)
  | fnv (f : List Char)
  | numv (s : List Char)
  | tupv
deriving DecidableEq, Repr

/-- Passing a non-socket operand into a primitive raises inside the NodeSetter
body; the cooked message depends on the exception text: a tuple operand is
reported as a tuple-syntax error, a raw number raises TypeError (cooked to
"Wrong Arguments Given"), a function object an AttributeError (generic
execution error). -/
def toSocks : List Val → Except ExecErr (List SockRef)
  | [] => .ok []
  | .sock r :: rest => (toSocks rest).map (fun socks => r :: socks)
  | .tupv :: _ => .error .tupleSyntax
  | .numv _ :: _ => .error .wrongArguments
  | .fnv _ :: _ => .error .executionError

/-- Call a registry function: Python raises the arity TypeError after the
arguments have been evaluated but before the body runs, so the graph is
unchanged by an arity error; the cooked messages come from the
"missing N required positional arguments" / "takes N positional arguments"
texts. -/
def applyFn (fname : List Char) (args : List Val) (ng : NodeTree) :
    NodeTree × Except ExecErr SockRef :=
  match registry.lookup fname with
  | none => (ng, .error .executionError)
  | some p =>
    if args.length < p.arity then (ng, .error (.needsMore fname (p.arity - args.length)))
    else if p.arity < args.length then (ng, .error (.extraParams fname))
    else
      match toSocks args with
      | .error er => (ng, .error er)
      | .ok socks =>
        let (ng, r) := applyPrim p socks ng
        (ng, .ok r)

def UOp.sign : UOp → Char
  | .usub => '-'
  | .uadd => '+'

mutual
/-- The sandboxed evaluation of the substituted call-form (Design note §9:
an interpreter over the call-form tree replacing exec()): names and numeric
literals resolve through the substitution maps first, then through the
function namespace; calls evaluate the callee, then the arguments left to
right, then dispatch.  Errors carry the partially mutated tree, exactly as
exec() leaves its side effects behind. -/
def evalE (env : List (List Char × SockRef)) : PyExpr → NodeTree → NodeTree × Except ExecErr Val
  | .num s, ng =>
    (match env.lookup s with
     | some r => (ng, .ok (.sock r))
     | none => (ng, .ok (.numv s)))
  | .name s, ng =>
    (match env.lookup s with
     | some r => (ng, .ok (.sock r))
     | none =>
       if s ∈ funct_namespace then (ng, .ok (.fnv s))
       else (ng, .error .executionError))
  | .unaryop op e, ng =>
    (match evalE env e ng with
     | (ng2, .error er) => (ng2, .error er)
     | (ng2, .ok (.numv s)) => (ng2, .ok (.numv (op.sign :: s)))
     | (ng2, .ok _) => (ng2, .error .wrongArguments))
  | .binop _ l r, ng =>
    (match evalE env l ng with
     | (ng2, .error er) => (ng2, .error er)
     | (ng2, .ok _) =>
       match evalE env r ng2 with
       | (ng3, .error er) => (ng3, .error er)
       | (ng3, .ok _) => (ng3, .error .wrongArguments))
  | .call f args, ng =>
    (match evalE env f ng with
     | (ng2, .error er) => (ng2, .error er)
     | (ng2, .ok fv) =>
       match evalArgsE env args ng2 with
       | (ng3, .error er) => (ng3, .error er)
       | (ng3, .ok vs) =>
         match fv with
         | .fnv fname =>
           (match applyFn fname vs ng3 with
            | (ng4, .error er) => (ng4, .error er)
            | (ng4, .ok r) => (ng4, .ok (.sock r)))
         | _ => (ng3, .error .wrongArguments))
  | .tuple es, ng =>
    (match evalArgsE env es ng with
     | (ng2, .error er) => (ng2, .error er)
     | (ng2, .ok _) => (ng2, .ok .tupv))

def evalArgsE (env : List (List Char × SockRef)) : PyArgs → NodeTree → NodeTree × Except ExecErr (List Val)
  | .anil, ng => (ng, .ok [])
  | .acons e rest, ng =>
    (match evalE env e ng with
     | (ng2, .error er) => (ng2, .error er)
     | (ng2, .ok v) =>
       match evalArgsE env rest ng2 with
       | (ng3, .error er) => (ng3, .error er)
       | (ng3, .ok vs) => (ng3, .ok (v :: vs)))
end

/-- NodeSetter.execute_function_expression: evaluate the substituted
call-form, then link the active node (falling back to the Group Input node
when the expression was a bare variable, or to the first VALUE node when it
was a bare constant) into the Group Output socket. -/
def execute_function_expression (hasVar hasConst : Bool) (tree : PyExpr)
    (ng : NodeTree) (env : List (List Char × SockRef)) : NodeTree × Option ExecErr :=
  match evalE env tree ng with
  | (ng2, .error er) => (ng2, some er)
  | (ng2, .ok _) =>
    let last? : Option SockRef :=
      match ng2.active with
      | some nid => some (.nodeOut nid 0)
      | none =>
        if hasVar then
          (match ng2.inSockets.head? with
           | some s => some (.inSock s.sid)
           | none => none)
        else if hasConst then
          (match ng2.nodes.find? (fun n => match n.kind with | .VALUE _ => true | _ => false) with
           | some n => some (.nodeOut n.nid 0)
           | none => none)
        else none
    match last? with
    | none => (ng2, some .finalLinkError)
    | some src => (addLink src (.outSock 0) ng2, none)

/-- Errors of the parse/lowering stage. -/
inductive TransErr where
  | notRecognized
  | unknownFunction (f : List Char)
deriving DecidableEq, Repr

def TransErr.message : TransErr → List Char
  | .notRecognized => "Math Expression Not Recognized".data
  | .unknownFunction f => "'".data ++ f ++ "' Function Not Recognized".data

/-- FunctionTransformer.transform_expression: parse, visit (recording the
function names used), verify every used name against the registry, return
the lowered tree. -/
def transform_expression (expr : List Char) : Except TransErr PyExpr :=
  match pyParse expr with
  | none => .error .notRecognized
  | some tree =>
    match (funcsUsedE tree).find? (fun f => decide (f ∉ funct_namespace)) with
    | some f => .error (.unknownFunction f)
    | none => .ok (transformE tree)

def BOp.sym : BOp → List Char
  | .addB => " + ".data
  | .subB => " - ".data
  | .mulB => " * ".data
  | .divB => " / ".data
  | .powB => " ** ".data
  | .modB => " % ".data
  | .floordivB => " // ".data

mutual
/-- ast.unparse, up to redundant parentheses around operator nodes (lowered
trees contain no binary operators, and no theorem inspects the rendered
debug text). -/
def unparseE : PyExpr → List Char
  | .num s => s
  | .name s => s
  | .unaryop op e => op.sign :: unparseE e
  | .binop op l r => '(' :: (unparseE l ++ op.sym ++ unparseE r) ++ [')']
  | .call f args => unparseE f ++ '(' :: unparseA args ++ [')']
  | .tuple es => '(' :: unparseA es ++ [')']

def unparseA : PyArgs → List Char
  | .anil => []
  | .acons e .anil => unparseE e
  | .acons e rest => unparseE e ++ ',' :: ' ' :: unparseA rest
end

/-- The state of one EXTRANODES_NG_mathexpression node: its string
properties, option flags, element sets and node tree. -/
structure MNode where
  user_mathexp : List Char
  implicit_mult : Bool
  auto_symbols : Bool
  error_message : List Char
  debug_sanatized : List Char
  debug_fctexp : List Char
  elemVar : List (List Char)
  elemConst : List (List Char)
  elemFct : List (List Char)
  elemCmplx : List (List Char)
  ng : NodeTree
deriving DecidableEq, Repr

/-- The graph stages of apply_expression after a successful sanitization:
clear the interior, reconcile boundary sockets, build the substitution
dicts, create constant nodes, quit early when there is nothing to evaluate,
lower, and execute.  (On a failed sanitization the instance element fields
may be partially overwritten by the classification loop; no claim observes
them, and the model leaves them unchanged in that case.) -/
def applyAfterSan (st0 : MNode) (out : SanOut) : MNode :=
  let st := { st0 with
    debug_sanatized := out.expr,
    elemVar := out.elemVar, elemConst := out.elemConst,
    elemFct := out.elemFct, elemCmplx := out.elemCmplx }
  let ng := clearInterior st.ng
  let ng := if !out.elemVar.isEmpty then createMissing out.elemVar ng else ng
  let ng := removeStale out.elemVar ng
  let vareq := buildVarEq out.elemVar ng
  let (ng, consteq) :=
    if !out.elemConst.isEmpty then createConsts out.elemConst ng else (ng, [])
  if out.elemVar.isEmpty && out.elemConst.isEmpty then { st with ng := ng }
  else
    match transform_expression out.expr with
    | .error er =>
      { st with ng := ng, error_message := er.message, debug_fctexp := "Failed".data }
    | .ok tree =>
      let st := { st with debug_fctexp := unparseE tree }
      match execute_function_expression (!out.elemVar.isEmpty) (!out.elemConst.isEmpty)
          tree ng (vareq ++ consteq) with
      | (ng2, some er) => { st with ng := ng2, error_message := er.message }
      | (ng2, none) => { st with ng := ng2 }

/-- EXTRANODES_NG_mathexpression.apply_expression: reset the diagnostics,
rewrite irrational macros into their glyphs when auto_symbols is set (which
retriggers the pass in the host), sanitize, and run the graph stages. -/
def apply_expression (st0 : MNode) : MNode :=
  let st := { st0 with error_message := [], debug_sanatized := [], debug_fctexp := [] }
  if st.auto_symbols && !(match_exact_tokens st.user_mathexp macroTokens).isEmpty then
    { st with
      user_mathexp := replace_exact_tokens st.user_mathexp
        (macroMap.filter (fun p => p.1 ∈ match_exact_tokens st.user_mathexp macroTokens)) }
  else
    match sanatize_expression st.implicit_mult st.user_mathexp with
    | .error er =>
      { st with error_message := er.message, debug_sanatized := "Failed".data }
    | .ok out => applyAfterSan st out

/-- A freshly initialized node tree: only the virtual CUSTOM boundary socket
and the Result output exist. -/
def initTree : NodeTree :=
  { inSockets := [⟨[], 0, .CUSTOM⟩], nodes := [], links := [], active := none, fresh := 1 }

/-- A node in its post-init state with a given expression and both options
off. -/
def initNode (user : List Char) : MNode :=
  { user_mathexp := user, implicit_mult := false, auto_symbols := false,
    error_message := [], debug_sanatized := [], debug_fctexp := [],
    elemVar := [], elemConst := [], elemFct := [], elemCmplx := [], ng := initTree }

mutual
/-- Does the expression still contain a binary operator node? -/
def noBinOpE : PyExpr → Bool
  | .num _ => true
  | .name _ => true
  | .unaryop _ e => noBinOpE e
  | .binop _ _ _ => false
  | .call f args => noBinOpE f && noBinOpA args
  | .tuple es => noBinOpA es

def noBinOpA : PyArgs → Bool
  | .anil => true
  | .acons e rest => noBinOpE e && noBinOpA rest
end

mutual
/-- Does the expression contain any operator node (binary or unary)? -/
def hasOperatorE : PyExpr → Bool
  | .num _ => false
  | .name _ => false
  | .unaryop _ _ => true
  | .binop _ _ _ => true
  | .call f args => hasOperatorE f || hasOperatorA args
  | .tuple es => hasOperatorA es

def hasOperatorA : PyArgs → Bool
  | .anil => false
  | .acons e rest => hasOperatorE e || hasOperatorA rest
end

/-- Is the sanitization result anything other than a variable-name-collision
error? -/
def collisionFree : Except SanErr SanOut → Bool
  | .error (.variableTaken _) => false
  | _ => true

/-- A node state holding an already-compiled fragment (one interior math node
wired to the output, one boundary variable socket `a`) whose raw expression
was just edited to the malformed `"x+"`. -/
def c1_pre : MNode :=
  { initNode ("x+".data) with
    ng := { inSockets := [⟨"a".data, 1, .VALUE⟩, ⟨[], 0, .CUSTOM⟩],
            nodes := [⟨2, .MATH .ADD⟩],
            links := [(.nodeOut 2 0, .outSock 0)],
            active := none, fresh := 3 } }

/-- A clean node whose expression is "Pi" with irrational recognition on. -/
def c7_pre : MNode :=
  { initNode ("Pi".data) with auto_symbols := true }

/-- A node holding a compiled fragment for two variables whose raw expression
was just cleared to the empty string. -/
def c10_pre : MNode :=
  { initNode ([]) with
    ng := { inSockets := [⟨"a".data, 1, .VALUE⟩, ⟨"b".data, 2, .VALUE⟩, ⟨[], 0, .CUSTOM⟩],
            nodes := [⟨3, .MATH .ADD⟩],
            links := [(.nodeOut 3 0, .outSock 0), (.inSock 1, .nodeIn 3 0)],
            active := none, fresh := 4 } }

/-- The state after compiling "a+b" from a clean node. -/
def c6_st1 : MNode := apply_expression (initNode ("a+b".data))

/-- The state after then editing the expression to "a+c" and recompiling. -/
def c6_st2 : MNode := apply_expression { c6_st1 with user_mathexp := "a+c".data }

/-! Helper lemmas (shared; not claim theorems). -/

mutual
theorem noBinOpE_transformE : (e : PyExpr) → noBinOpE (transformE e) = true
  | .num _ => rfl
  | .name _ => rfl
  | .unaryop _ e => by
    simpa [transformE, noBinOpE] using noBinOpE_transformE e
  | .binop _ l r => by
    simp [transformE, noBinOpE, noBinOpA, noBinOpE_transformE l, noBinOpE_transformE r]
  | .call f args => by
    simp [transformE, noBinOpE, noBinOpE_transformE f, noBinOpA_transformA args]
  | .tuple es => by
    simpa [transformE, noBinOpE] using noBinOpA_transformA es

theorem noBinOpA_transformA : (as : PyArgs) → noBinOpA (transformA as) = true
  | .anil => rfl
  | .acons e rest => by
    simp [transformA, noBinOpA, noBinOpE_transformE e, noBinOpA_transformA rest]
end

theorem classifyOff_taken_free (toks : List (List Char)) :
    ∀ acc t, classifyOff toks acc ≠ .error (.variableTaken t) := by
  induction toks with
  | nil => intro acc t h; exact Except.noConfusion h
  | cons e rest ih =>
    intro acc t h
    by_cases h1 : e ∈ funct_namespace
    · rw [classifyOff, if_pos h1] at h; exact ih _ _ h
    · rw [classifyOff, if_neg h1] at h
      by_cases h2 : constTok e = true
      · rw [if_pos h2] at h; exact ih _ _ h
      · rw [if_neg h2] at h
        by_cases h3 : alphaTok e = true
        · rw [if_pos h3, if_neg h1] at h; exact ih _ _ h
        · rw [if_neg h3] at h
          exact SanErr.noConfusion (Except.error.inj h)

theorem classifyOn_taken_free (e3 : List Char) (toks : List (List Char)) :
    ∀ acc t, classifyOn e3 toks acc ≠ .error (.variableTaken t) := by
  induction toks with
  | nil => intro acc t h; exact Except.noConfusion h
  | cons e rest ih =>
    intro acc t h
    by_cases h1 : (e ∈ funct_namespace && containsSub (e ++ "(".data) e3) = true
    · rw [classifyOn, if_pos h1] at h; exact ih _ _ h
    · rw [classifyOn, if_neg h1] at h
      by_cases h2 : constTok e = true
      · rw [if_pos h2] at h; exact ih _ _ h
      · rw [if_neg h2] at h
        by_cases h3 : alphaTok e = true
        · rw [if_pos h3] at h; exact ih _ _ h
        · rw [if_neg h3] at h
          by_cases h4 : e.any pyIsDigitChar = true
          · rw [if_pos h4] at h; exact ih _ _ h
          · rw [if_neg h4] at h
            exact SanErr.noConfusion (Except.error.inj h)

theorem sanFinish_collision_free (b : Bool) (e3 : List Char) :
    collisionFree (sanFinish b e3) = true := by
  unfold sanFinish
  cases hcl : sanClassify b e3 with
  | error er =>
    cases er with
    | variableTaken t =>
      exfalso
      unfold sanClassify at hcl
      cases b with
      | false => exact classifyOff_taken_free _ _ t (by simpa using hcl)
      | true => exact classifyOn_taken_free _ _ _ t (by simpa using hcl)
    | unrecognizedVariable t => rfl
    | unrecognizedSymbol c => rfl
  | ok acc =>
    cases e3.find? (fun c => !authorizedChar c) with
    | none => rfl
    | some c => rfl

theorem sanatize_collision_free (b : Bool) (e : List Char) :
    collisionFree (sanatize_expression b e) = true :=
  sanFinish_collision_free b _

theorem eraseChain_shift (is : List Nat) (a : BSocket) (l : List BSocket) :
    (is.map (· + 1)).foldl (fun acc i => acc.eraseIdx i) (a :: l) =
      a :: is.foldl (fun acc i => acc.eraseIdx i) l := by
  induction is generalizing a l with
  | nil => rfl
  | cons i is ih =>
    simp only [List.map_cons, List.foldl_cons, List.eraseIdx_cons_succ]
    exact ih a _

theorem staleIdxsAux_shift (ev : List (List Char)) (l : List BSocket) :
    ∀ i, staleIdxsAux ev i l = (staleIdxsAux ev 0 l).map (· + i) := by
  induction l with
  | nil => intro i; rfl
  | cons s rest ih =>
    intro i
    simp only [staleIdxsAux]
    rw [ih (i + 1), ih 1, List.map_append, List.map_map]
    congr 1
    · split <;> simp
    · refine List.map_congr_left ?_
      intro x _
      simp only [Function.comp_apply]
      omega

theorem removeIdxs_filter (ev : List (List Char)) (l : List BSocket) :
    (staleIdxsAux ev 0 l).reverse.foldl (fun acc i => acc.eraseIdx i) l =
      l.filter (fun s => !(s.stype ≠ SockType.CUSTOM && !(decide (s.name ∈ ev)))) := by
  induction l with
  | nil => rfl
  | cons s rest ih =>
    rw [staleIdxsAux, staleIdxsAux_shift ev rest 1]
    by_cases hb : (s.stype ≠ SockType.CUSTOM && !(decide (s.name ∈ ev))) = true
    · rw [if_pos hb]
      simp only [List.singleton_append, List.reverse_cons, List.foldl_append]
      rw [show ((staleIdxsAux ev 0 rest).map (· + 1)).reverse
            = (staleIdxsAux ev 0 rest).reverse.map (· + 1) by
          rw [List.map_reverse]]
      rw [eraseChain_shift]
      simp only [List.foldl_cons, List.foldl_nil, List.eraseIdx_cons_zero]
      rw [ih, List.filter_cons]
      have hc : ¬(s.stype = SockType.CUSTOM ∨ s.name ∈ ev) := by
        simp only [Bool.and_eq_true, decide_eq_true_eq, Bool.not_eq_true',
          decide_eq_false_iff_not] at hb
        push_neg
        exact ⟨hb.1, hb.2⟩
      simp [hb, hc]
    · rw [if_neg hb]
      simp only [List.nil_append]
      rw [show ((staleIdxsAux ev 0 rest).map (· + 1)).reverse
            = (staleIdxsAux ev 0 rest).reverse.map (· + 1) by
          rw [List.map_reverse]]
      rw [eraseChain_shift]
      rw [ih, List.filter_cons]
      have hc : s.stype = SockType.CUSTOM ∨ s.name ∈ ev := by
        by_cases h1 : s.stype = SockType.CUSTOM
        · exact Or.inl h1
        · right
          by_contra h2
          exact hb (by simp [h1, h2])
      simp [hb, hc]

theorem remove_socket_inSockets (ng : NodeTree) (i : Nat) :
    (remove_socket ng i).inSockets = ng.inSockets.eraseIdx i := by
  unfold remove_socket
  cases h : ng.inSockets[i]? with
  | some s => rfl
  | none =>
    have hlen : ng.inSockets.length ≤ i := by
      by_contra hlt
      exact absurd h (by simp [List.getElem?_eq_getElem (Nat.lt_of_not_le hlt)])
    rw [List.eraseIdx_eq_self.mpr hlen]

theorem remove_socket_nodes (ng : NodeTree) (i : Nat) :
    (remove_socket ng i).nodes = ng.nodes := by
  unfold remove_socket
  cases ng.inSockets[i]? <;> rfl

theorem remove_socket_active (ng : NodeTree) (i : Nat) :
    (remove_socket ng i).active = ng.active := by
  unfold remove_socket
  cases ng.inSockets[i]? <;> rfl

theorem remove_socket_links_sub (ng : NodeTree) (i : Nat) :
    ∀ lnk ∈ (remove_socket ng i).links, lnk ∈ ng.links := by
  unfold remove_socket
  cases ng.inSockets[i]? with
  | none => exact fun lnk h => h
  | some s => exact fun lnk h => (List.mem_filter.mp h).1

theorem removeChain_inSockets (idxs : List Nat) :
    ∀ ng : NodeTree, (idxs.foldl remove_socket ng).inSockets =
      idxs.foldl (fun l i => l.eraseIdx i) ng.inSockets := by
  induction idxs with
  | nil => intro ng; rfl
  | cons i idxs ih =>
    intro ng
    simp only [List.foldl_cons]
    rw [ih, remove_socket_inSockets]

theorem removeChain_nodes (idxs : List Nat) :
    ∀ ng : NodeTree, (idxs.foldl remove_socket ng).nodes = ng.nodes := by
  induction idxs with
  | nil => intro ng; rfl
  | cons i idxs ih =>
    intro ng
    simp only [List.foldl_cons]
    rw [ih, remove_socket_nodes]

theorem removeChain_active (idxs : List Nat) :
    ∀ ng : NodeTree, (idxs.foldl remove_socket ng).active = ng.active := by
  induction idxs with
  | nil => intro ng; rfl
  | cons i idxs ih =>
    intro ng
    simp only [List.foldl_cons]
    rw [ih, remove_socket_active]

theorem removeChain_links_sub (idxs : List Nat) :
    ∀ ng : NodeTree, ∀ lnk ∈ (idxs.foldl remove_socket ng).links, lnk ∈ ng.links := by
  induction idxs with
  | nil => intro ng lnk h; exact h
  | cons i idxs ih =>
    intro ng lnk h
    exact remove_socket_links_sub ng i lnk (ih _ lnk h)

theorem removeStale_inSockets (ev : List (List Char)) (ng : NodeTree) :
    (removeStale ev ng).inSockets =
      ng.inSockets.filter (fun s => !(s.stype ≠ SockType.CUSTOM && !(decide (s.name ∈ ev)))) := by
  unfold removeStale
  rw [removeChain_inSockets, removeIdxs_filter]

theorem removeStale_nodes (ev : List (List Char)) (ng : NodeTree) :
    (removeStale ev ng).nodes = ng.nodes := by
  unfold removeStale
  exact removeChain_nodes _ ng

theorem removeStale_active (ev : List (List Char)) (ng : NodeTree) :
    (removeStale ev ng).active = ng.active := by
  unfold removeStale
  exact removeChain_active _ ng

theorem removeStale_links_sub (ev : List (List Char)) (ng : NodeTree) :
    ∀ lnk ∈ (removeStale ev ng).links, lnk ∈ ng.links := by
  unfold removeStale
  exact removeChain_links_sub _ ng

theorem clearInterior_links_sub (ng : NodeTree) :
    ∀ lnk ∈ (clearInterior ng).links, lnk ∈ ng.links := by
  intro lnk h
  exact (List.mem_filter.mp h).1

/-- applyAfterSan never touches the raw expression or the option flags. -/
theorem applyAfterSan_user (st : MNode) (out : SanOut) :
    (applyAfterSan st out).user_mathexp = st.user_mathexp := by
  unfold applyAfterSan
  dsimp only
  repeat first
  | rfl
  | split

/-- With no Variables and no Constants, the graph stages reduce to: clear the
interior, remove every non-CUSTOM boundary socket, and return early with the
diagnostics untouched and no new link. -/
theorem applyAfterSan_empty (st : MNode) (out : SanOut)
    (hv : out.elemVar = []) (hc : out.elemConst = []) :
    (applyAfterSan st out).ng.nodes = [] ∧
    (applyAfterSan st out).ng.inSockets =
      st.ng.inSockets.filter (fun s => decide (s.stype = SockType.CUSTOM)) ∧
    (applyAfterSan st out).error_message = st.error_message ∧
    (applyAfterSan st out).debug_fctexp = st.debug_fctexp ∧
    ∀ lnk ∈ (applyAfterSan st out).ng.links, lnk ∈ st.ng.links := by
  unfold applyAfterSan
  dsimp only
  rw [hv, hc]
  simp only [List.isEmpty_nil, Bool.not_true, Bool.false_eq_true, if_false,
    Bool.and_self, if_true]
  refine ⟨?_, ?_, by trivial, by trivial, ?_⟩
  · rw [removeStale_nodes]
    rfl
  · rw [removeStale_inSockets]
    show st.ng.inSockets.filter _ = st.ng.inSockets.filter _
    refine List.filter_congr ?_
    intro s _
    simp [decide_not]
  · intro lnk h
    exact clearInterior_links_sub st.ng lnk (removeStale_links_sub _ _ lnk h)

/-! Claim theorems. -/

/-- C1 (amended): a sanitization failure leaves the target graph completely
untouched.  (The original claim also covered parsing/lowering failures, but
those occur after the interior has been cleared and the boundary sockets
reconciled — see the counterexample.) -/
theorem c1_sanitize_failure_preserves_graph (st : MNode) (er : SanErr)
    (h : sanatize_expression st.implicit_mult st.user_mathexp = .error er) :
    (apply_expression st).ng = st.ng := by
  unfold apply_expression
  dsimp only
  split
  · rfl
  · rw [h]

theorem c1_witness :
    sanatize_expression false (("x & y").data) =
      .error (.unrecognizedVariable (("x&y").data)) ∧
    (apply_expression (initNode (("x & y").data))).ng = (initNode (("x & y").data)).ng :=
  ⟨rfl, c1_sanitize_failure_preserves_graph (initNode (("x & y").data))
    (.unrecognizedVariable (("x&y").data)) rfl⟩

/-- C1 counterexample: on a node holding a compiled fragment, the malformed
expression "x+" passes sanitization, the pass clears the interior node and
reconciles the boundary sockets, and only then fails in parsing — so a
parsing failure does mutate the graph, contradicting the claim. -/
theorem c1_counterexample :
    (apply_expression c1_pre).error_message = ("Math Expression Not Recognized").data ∧
    (apply_expression c1_pre).ng.nodes ≠ c1_pre.ng.nodes ∧
    (apply_expression c1_pre).ng.inSockets ≠ c1_pre.ng.inSockets :=
  ⟨rfl, by decide, by decide⟩

/-- C2 (amended): the example expression lowers to exactly the claimed
function-call form (argument order preserved), and lowering removes every
binary operator node from every input; unary operator nodes, however, are
left in place (FunctionTransformer has no UnaryOp visitor) — see the
counterexample. -/
theorem c2_lowering :
    sanatize_expression false (("x*2 + (3-4/5)/3 + (x+y)**2").data) =
      .ok ⟨("x*2+(3-4/5)/3+(x+y)**2").data,
           [("x").data, ("y").data],
           [("2").data, ("3").data, ("4").data, ("5").data], [], []⟩ ∧
    (pyParse (("x*2+(3-4/5)/3+(x+y)**2").data)).map transformE =
      pyParse (("add(add(mult(x,2),div(subtract(3,div(4,5)),3)),exp(add(x,y),2))").data) ∧
    ∀ e : PyExpr, noBinOpE (transformE e) = true :=
  ⟨rfl, rfl, noBinOpE_transformE⟩

/-- C2 counterexample: "-x" is a sanitizable input whose lowering still
contains a unary operator node, refuting "no remaining binary/unary operator
nodes" for every input. -/
theorem c2_counterexample :
    sanatize_expression false (("-x").data) =
      .ok ⟨("-x").data, [("x").data], [], [], []⟩ ∧
    (pyParse (("-x").data)).map transformE =
      some (.unaryop .usub (.name (("x").data))) ∧
    hasOperatorE (.unaryop .usub (.name (("x").data))) = true :=
  ⟨rfl, rfl, rfl⟩

/-- C3 (code_bug evaluation): the greedy superscript regex attaches ² to the
whole alphanumeric run "2a", producing "(2a**2)b" — not the "2(a**2)b" its
own docstring promises — and sanitization of "2a²b" then fails on the
unclassifiable token "2a" instead of producing anything equivalent to
2*(a**2)*b. -/
theorem c3_superscript_attaches_to_run :
    replace_superscript_exponents (("2a²b").data) = ("(2a**2)b").data ∧
    replace_superscript_exponents (("2a²b").data) ≠ ("2(a**2)b").data ∧
    sanatize_expression false (("2a²b").data) =
      .error (.unrecognizedVariable (("2a").data)) :=
  ⟨rfl, by decide, rfl⟩

/-- C4 (amended): "x & y" does fail during sanitization and leaves the graph
unchanged, but the error is the token-level UnrecognizedVariable naming the
whole unsplit token "x&y" ('&' is not a token separator), not a
character-level error carrying "&". -/
theorem c4_unknown_symbol_token_error (st : MNode)
    (h : st.user_mathexp = ("x & y").data) :
    (apply_expression st).ng = st.ng ∧
    (apply_expression st).error_message =
      SanErr.message (.unrecognizedVariable (("x&y").data)) := by
  unfold apply_expression
  dsimp only
  rw [h]
  rw [show match_exact_tokens (("x & y").data) macroTokens = [] from rfl]
  simp only [List.isEmpty_nil, Bool.not_true, Bool.and_false, Bool.false_eq_true, if_false]
  cases him : st.implicit_mult
  · rw [show sanatize_expression false (("x & y").data) =
        .error (.unrecognizedVariable (("x&y").data)) from rfl]
    exact ⟨rfl, rfl⟩
  · rw [show sanatize_expression true (("x & y").data) =
        .error (.unrecognizedVariable (("x&y").data)) from rfl]
    exact ⟨rfl, rfl⟩

theorem c4_witness :
    (apply_expression (initNode (("x & y").data))).ng = (initNode (("x & y").data)).ng ∧
    (apply_expression (initNode (("x & y").data))).error_message =
      SanErr.message (.unrecognizedVariable (("x&y").data)) :=
  c4_unknown_symbol_token_error (initNode (("x & y").data)) rfl

/-- C4 counterexample: the produced error is not UnrecognizedSymbol('&'). -/
theorem c4_counterexample :
    sanatize_expression false (("x & y").data) =
      .error (.unrecognizedVariable (("x&y").data)) ∧
    SanErr.message (.unrecognizedVariable (("x&y").data)) ≠
      SanErr.message (.unrecognizedSymbol '&') :=
  ⟨rfl, by decide⟩

/-- C5 (amended): a registry primitive invoked with a wrong operand count
fails without touching the graph; the message always names the function, but
only the too-few case carries a number — the count of missing operands, not
the expected arity — and the too-many case carries no count at all (see the
counterexample). -/
theorem c5_arity_errors :
    (∀ (fname : List Char) (p : Prim) (args : List Val) (ng : NodeTree),
      registry.lookup fname = some p → args.length ≠ p.arity →
      applyFn fname args ng =
        (ng, .error (if args.length < p.arity
                     then .needsMore fname (p.arity - args.length)
                     else .extraParams fname))) ∧
    (apply_expression (initNode (("add(a,b,c)").data))).error_message =
      ("Function 'add' recieved Extra Params").data ∧
    (apply_expression (initNode (("sqrt()+x").data))).error_message =
      ("Function 'sqrt' needs 1 more Params").data := by
  refine ⟨?_, rfl, rfl⟩
  intro fname p args ng hl hne
  unfold applyFn
  rw [hl]
  dsimp only
  rcases Nat.lt_or_ge args.length p.arity with hlt | hge
  · rw [if_pos hlt, if_pos hlt]
  · have hgt : p.arity < args.length := Nat.lt_of_le_of_ne hge (fun e => hne e.symm)
    rw [if_neg (Nat.not_lt.mpr hge), if_pos hgt, if_neg (Nat.not_lt.mpr hge)]

theorem c5_witness :
    applyFn (("add").data) [.sock (.inSock 1), .sock (.inSock 2), .sock (.inSock 3)] initTree =
      (initTree, .error (.extraParams (("add").data))) := by
  have h := c5_arity_errors.1 (("add").data) (.math2 .ADD)
      [.sock (.inSock 1), .sock (.inSock 2), .sock (.inSock 3)] initTree rfl (by decide)
  rw [h]
  rfl

/-- C5 counterexample: calling add with three operands produces
"Function 'add' recieved Extra Params" — the expected operand count 2 appears
nowhere in the message. -/
theorem c5_counterexample :
    (apply_expression (initNode (("add(a,b,c)").data))).error_message =
      ("Function 'add' recieved Extra Params").data ∧
    containsSub (("2").data)
      (apply_expression (initNode (("add(a,b,c)").data))).error_message = false :=
  ⟨rfl, rfl⟩

/-- C6 (confirmed): compiling "a+b" and then "a+c" removes the stale boundary
input b, adds a fresh boundary input c (new identity 4), and reuses the
existing socket a — same identity 1 in both states, so external links to it
survive. -/
theorem c6_boundary_reconciliation :
    c6_st1.error_message = [] ∧ c6_st2.error_message = [] ∧
    c6_st1.ng.inSockets =
      [⟨("a").data, 1, .VALUE⟩, ⟨("b").data, 2, .VALUE⟩, ⟨[], 0, .CUSTOM⟩] ∧
    c6_st2.ng.inSockets =
      [⟨("a").data, 1, .VALUE⟩, ⟨("c").data, 4, .VALUE⟩, ⟨[], 0, .CUSTOM⟩] :=
  ⟨rfl, rfl, rfl, rfl⟩

/-- C7 (amended): no compilation pass rewrites the stored raw expression
except the irrational-macro pre-step: with irrational recognition off, or
with no macro token present, the raw text is preserved by every pass.  (With
recognition on and a macro present the pass does rewrite it — see the
counterexample.) -/
theorem c7_raw_preserved_without_macro (st : MNode)
    (h : st.auto_symbols = false ∨ match_exact_tokens st.user_mathexp macroTokens = []) :
    (apply_expression st).user_mathexp = st.user_mathexp := by
  unfold apply_expression
  dsimp only
  have hcond : (st.auto_symbols &&
      !(match_exact_tokens st.user_mathexp macroTokens).isEmpty) = false := by
    rcases h with h | h
    · rw [h]
      rfl
    · rw [h]
      simp
  rw [hcond]
  simp only [Bool.false_eq_true, if_false]
  cases hs : sanatize_expression st.implicit_mult st.user_mathexp with
  | error er => rfl
  | ok out => exact applyAfterSan_user _ _

theorem c7_witness :
    (apply_expression (initNode (("x+y").data))).user_mathexp = ("x+y").data :=
  c7_raw_preserved_without_macro (initNode (("x+y").data)) (Or.inl rfl)

/-- C7 counterexample: with irrational recognition enabled, applying the pass
to the raw expression "Pi" rewrites the stored raw text to "π". -/
theorem c7_counterexample :
    c7_pre.auto_symbols = true ∧ c7_pre.user_mathexp = ("Pi").data ∧
    (apply_expression c7_pre).user_mathexp = ("π").data ∧
    (("π").data : List Char) ≠ ("Pi").data :=
  ⟨rfl, rfl, rfl, by decide⟩

/-- C8 (amended): sanitization never fails with a VariableNameCollision
("Variable ... is Taken") — in implicit-multiplication-off mode a registry
name is classified Function unconditionally before the collision check can
run, and the on-mode loop has no such check.  Only in implicit mode is a
registry-name token Function exactly when followed by "(" and a Variable
otherwise. -/
theorem c8_registry_name_classification :
    (∀ (b : Bool) (e : List Char), collisionFree (sanatize_expression b e) = true) ∧
    sanatize_expression true (("sin+1").data) =
      .ok ⟨("sin+1").data, [("sin").data], [("1").data], [], []⟩ ∧
    sanatize_expression true (("sin(1)").data) =
      .ok ⟨("sin(1)").data, [], [("1").data], [("sin").data], []⟩ :=
  ⟨sanatize_collision_free, rfl, rfl⟩

/-- C8 counterexample: with implicit multiplication off, "sin+1" — where sin
is used as a variable and not followed by "(" — sanitizes successfully with
sin classified as a Function, instead of failing with VariableNameCollision
as claimed. -/
theorem c8_counterexample :
    sanatize_expression false (("sin+1").data) =
      .ok ⟨("sin+1").data, [], [("1").data], [("sin").data], []⟩ :=
  rfl

/-- C9 (confirmed): compiling the bare variable "x" produces zero interior
nodes and links the boundary input socket x (identity 1, the socket named x)
directly to the output socket; compiling the bare constant "3" produces the
sole constant-value node and links it to the output. -/
theorem c9_bare_token_fallback :
    (apply_expression (initNode (("x").data))).error_message = [] ∧
    (apply_expression (initNode (("x").data))).ng.nodes = [] ∧
    (apply_expression (initNode (("x").data))).ng.links =
      [(.inSock 1, .outSock 0)] ∧
    (apply_expression (initNode (("x").data))).ng.inSockets =
      [⟨("x").data, 1, .VALUE⟩, ⟨[], 0, .CUSTOM⟩] ∧
    (apply_expression (initNode (("3").data))).error_message = [] ∧
    (apply_expression (initNode (("3").data))).ng.nodes =
      [⟨1, .VALUE (("3").data)⟩] ∧
    (apply_expression (initNode (("3").data))).ng.links =
      [(.nodeOut 1 0, .outSock 0)] :=
  ⟨rfl, rfl, rfl, rfl, rfl, rfl, rfl⟩

/-- C10 (confirmed): when sanitization succeeds with no Variable and no
Constant token, the pass still clears every interior node, removes every
non-CUSTOM boundary input socket, reports no error, builds no function-call
form, and adds no link.  The guard only excludes the irrational-macro
rewrite branch, in which sanitization is not reached at all. -/
theorem c10_no_elements_early_return (st : MNode) (out : SanOut)
    (h0 : st.auto_symbols = false ∨ match_exact_tokens st.user_mathexp macroTokens = [])
    (hs : sanatize_expression st.implicit_mult st.user_mathexp = .ok out)
    (hv : out.elemVar = []) (hc : out.elemConst = []) :
    (apply_expression st).ng.nodes = [] ∧
    (apply_expression st).ng.inSockets =
      st.ng.inSockets.filter (fun s => decide (s.stype = SockType.CUSTOM)) ∧
    (apply_expression st).error_message = [] ∧
    (apply_expression st).debug_fctexp = [] ∧
    ∀ lnk ∈ (apply_expression st).ng.links, lnk ∈ st.ng.links := by
  have heq : apply_expression st =
      applyAfterSan
        { st with error_message := [], debug_sanatized := [], debug_fctexp := [] } out := by
    unfold apply_expression
    dsimp only
    have hcond : (st.auto_symbols &&
        !(match_exact_tokens st.user_mathexp macroTokens).isEmpty) = false := by
      rcases h0 with h | h
      · rw [h]
        rfl
      · rw [h]
        simp
    rw [hcond]
    simp only [Bool.false_eq_true, if_false]
    rw [hs]
  rw [heq]
  have h := applyAfterSan_empty
    { st with error_message := [], debug_sanatized := [], debug_fctexp := [] } out hv hc
  exact ⟨h.1, h.2.1, h.2.2.1, h.2.2.2.1, h.2.2.2.2⟩

theorem c10_witness :
    (apply_expression c10_pre).ng.nodes = [] ∧
    (apply_expression c10_pre).ng.inSockets =
      c10_pre.ng.inSockets.filter (fun s => decide (s.stype = SockType.CUSTOM)) ∧
    (apply_expression c10_pre).error_message = [] ∧
    (apply_expression c10_pre).debug_fctexp = [] ∧
    ∀ lnk ∈ (apply_expression c10_pre).ng.links, lnk ∈ c10_pre.ng.links :=
  c10_no_elements_early_return c10_pre ⟨[], [], [], [], []⟩ (Or.inl rfl) rfl rfl rfl
